import Mathlib

/-!
Verification of the metrics engine of Article-Insight-Analyzer.

The repository holds three near-duplicate Python implementations of the
engine: `main.py` (class `TextAnalyzer`), `text_analysis.py` (an older
`TextAnalyzer` variant), and `analyze_articles.py` (class
`ArticleAnalyzer`).  Each relevant routine is embedded below as an
executable Lean function over `List Char` texts.  Conventions of the
embedding:

* Python `float` arithmetic is modelled by exact rationals (`ℚ`); the
  smoothing constant `0.000001` becomes `1/1000000`.
* The NLTK tokenizers `sent_tokenize` / `word_tokenize` are external
  collaborators; they are passed in as parameters of type
  `Tokenizer = List Char → Option (List (List Char))`, where `none`
  models the tokenizer raising an exception.  Concrete whitespace /
  punctuation splitters (`mSent`, `mWord`) serve as executable models
  of NLTK in concrete evaluations.
* Character classes (`\w`, `\s`, `str.isalnum`, `str.lower`) are
  modelled on their ASCII behaviour, which coincides with Python on all
  concrete inputs used here.
* Word-list files are modelled by a function from the candidate
  encoding to `Option` of the decoded line list, `none` modelling a
  `UnicodeDecodeError` for that encoding.
-/

/-- Texts and tokens are lists of characters. -/
abbrev Tok := List Char

/-- Python regex `\w` (ASCII fragment): letters, digits, underscore. -/
def wordChar (c : Char) : Bool := c.isAlphanum || c = '_'

/-- The vowel class `'aeiouy'` used by `_count_syllables`. -/
def isVowel (c : Char) : Bool :=
  c = 'a' || c = 'e' || c = 'i' || c = 'o' || c = 'u' || c = 'y'

/-- Python `str.strip()`: drop whitespace from both ends. -/
def strip (t : Tok) : Tok :=
  ((t.dropWhile Char.isWhitespace).reverse.dropWhile Char.isWhitespace).reverse

/-- Split a character list at every character satisfying `p`, keeping only
the nonempty fragments (fragment accumulator is reversed on emission). -/
def splitOnPredAux (p : Char → Bool) : Tok → Tok → List Tok
  | [], cur => [cur.reverse]
  | c :: cs, cur =>
    if p c then cur.reverse :: splitOnPredAux p cs []
    else splitOnPredAux p cs (c :: cur)

/-- Split on characters satisfying `p`, dropping empty fragments. -/
def splitOnPred (p : Char → Bool) (t : Tok) : List Tok :=
  (splitOnPredAux p t []).filter (fun f => !f.isEmpty)

/-- Last character of a token, if any. -/
def lastChar (w : Tok) : Option Char := w.reverse.head?

/-- Python `word.endswith('e')`. -/
def endsE (w : Tok) : Bool := lastChar w == some 'e'

/-- Python `word.endswith('es')`. -/
def endsES (w : Tok) : Bool :=
  match w.reverse with
  | s :: e :: _ => s == 's' && e == 'e'
  | _ => false

/-- Python `word.endswith('ed')`. -/
def endsED (w : Tok) : Bool :=
  match w.reverse with
  | d :: e :: _ => d == 'd' && e == 'e'
  | _ => false

/-- The vowel-group loop shared by all `_count_syllables` variants:
`prev` is `prev_char_is_vowel`; each transition from a non-vowel into a
vowel adds one. -/
def vowelGroups : Bool → Tok → ℤ
  | _, [] => 0
  | prev, c :: cs =>
    (if isVowel c && !prev then 1 else 0) + vowelGroups (isVowel c) cs

/-- Shared tail of every `_count_syllables` variant: count the vowel
groups, subtract one if the word ends in a literal `e`, and replace a
zero count by one (`if count == 0: count = 1`). -/
def adjustCount (w : Tok) : ℤ :=
  let c0 := vowelGroups false w
  let c1 := if endsE w then c0 - 1 else c0
  if c1 = 0 then 1 else c1

/-- `TextAnalyzer._count_syllables` of `main.py` (lines 50-76), identical
to `ArticleAnalyzer._count_syllables` of `analyze_articles.py` (lines
116-142): lower-case, strip a trailing `es`/`ed`, count vowel groups,
subtract one for a trailing `e`, replace a zero count by one. -/
def countSyllables (w : Tok) : ℤ :=
  let w1 := w.map Char.toLower
  adjustCount (if endsES w1 || endsED w1 then w1.dropLast.dropLast else w1)

/-- `TextAnalyzer._count_syllables` of `text_analysis.py` (lines 74-87):
no suffix stripping.  The initial `if word[0] in vowels` plus the loop
from index 1 is exactly `vowelGroups false` on a nonempty word.  Python
raises `IndexError` on the empty string (`word[0]`); the `[]` branch is
unreachable in the program because callers pass only nonempty
alphanumeric tokens. -/
def taCountSyllables (w : Tok) : ℤ :=
  match w.map Char.toLower with
  | [] => 1
  | c :: cs => adjustCount (c :: cs)

/-! ### Personal-pronoun regex

`main.py` line 113 and `analyze_articles.py` line 95 count
`re.findall(r'\b(I|we|my|ours|us)\b(?!\s+(?:states|state))', text, re.I)`;
`text_analysis.py` line 125 uses the same pattern without the lookahead.
The scanner below follows `re.findall` semantics: attempt a match at each
position from the left; on success continue after the match, otherwise
advance one character.  The five alternatives start with distinct
letters, so alternative order never matters.  A decreasing fuel argument
(initially the text length, an upper bound on the number of steps since
every step consumes at least one character) makes the recursion
structural. -/

/-- Case-insensitive literal match at the head of `cs` (the literal is
given in lower case). -/
def matchCI : Tok → Tok → Bool
  | [], _ => true
  | _ :: _, [] => false
  | l :: ls, c :: cs => (c.toLower == l) && matchCI ls cs

/-- The five pronoun alternatives, in the pattern's order. -/
def pronLits : List Tok :=
  [['i'], ['w', 'e'], ['m', 'y'], ['o', 'u', 'r', 's'], ['u', 's']]

/-- First alternative whose characters match at the head of `cs`. -/
def findPron (cs : Tok) : Option Tok :=
  pronLits.find? (fun l => matchCI l cs)

/-- The `\b` after the pronoun: end of text, or a non-word character. -/
def boundaryAfter : Tok → Bool
  | [] => true
  | c :: _ => !wordChar c

/-- The lookahead `(?!\s+(?:states|state))` body: at least one
whitespace character, then the literal `state` (case-insensitively;
`states` matches exactly when `state` does, being its extension). -/
def stateLookahead (cs : Tok) : Bool :=
  match cs with
  | [] => false
  | c :: _ =>
    c.isWhitespace && matchCI (("state").toList) (cs.dropWhile Char.isWhitespace)

/-- Regex scan: `la lit` tells whether the lookahead applies to a match
of the alternative `lit`.  `prevW` records whether the character before
the current position is a word character (for the leading `\b`). -/
def pronScan (la : Tok → Bool) : Nat → Bool → Tok → Nat
  | 0, _, _ => 0
  | _ + 1, _, [] => 0
  | fuel + 1, prevW, c :: cs =>
    match findPron (c :: cs) with
    | some lit =>
      let rest := (c :: cs).drop lit.length
      if !prevW && boundaryAfter rest && !(la lit && stateLookahead rest) then
        1 + pronScan la fuel true rest
      else
        pronScan la fuel (wordChar c) cs
    | none => pronScan la fuel (wordChar c) cs

/-- Pronoun count of `main.py` / `analyze_articles.py`: the lookahead
follows the whole alternation group, hence applies to every pronoun. -/
def personalPronouns (t : Tok) : ℕ := pronScan (fun _ => true) t.length false t

/-- Pronoun count of `text_analysis.py`: no lookahead at all. -/
def taPronouns (t : Tok) : ℕ := pronScan (fun _ => false) t.length false t

/-- Claim-side variant, modelled from the specification's words: the
`state`/`states` exclusion applies only to occurrences of `us`. -/
def pronounsOnlyUs (t : Tok) : ℕ :=
  pronScan (fun lit => lit == ['u', 's']) t.length false t

/-! ### Tokenization, filtering and the metric record -/

/-- A tokenizer (model of NLTK `sent_tokenize` / `word_tokenize`);
`none` models the call raising an exception. -/
abbrev Tokenizer := Tok → Option (List Tok)

/-- The three word sets held by an analyzer instance. -/
structure Analyzer where
  positive : List Tok
  negative : List Tok
  stop : List Tok

/-- Python `str.isalnum()`: nonempty and all characters alphanumeric. -/
def isAlnumTok (w : Tok) : Bool := !w.isEmpty && w.all Char.isAlphanum

/-- `main.py` line 88 / `analyze_articles.py` line 56:
`re.sub(r'[^\w\s]', ' ', text.lower())` — lower-case, then replace every
character that is neither a word character nor whitespace by a space. -/
def cleanText (t : Tok) : Tok :=
  (t.map Char.toLower).map
    (fun c => if !(wordChar c || c.isWhitespace) then ' ' else c)

/-- `main.py` line 90 / `analyze_articles.py` line 60: keep tokens that
are not stop words and are purely alphanumeric. -/
def cleanFilter (a : Analyzer) (ws : List Tok) : List Tok :=
  ws.filter (fun w => !a.stop.contains w && isAlnumTok w)

/-- `sum(1 for word in words if word in wordset)`. -/
def countIn (dict : List Tok) (ws : List Tok) : ℕ :=
  ws.foldl (fun acc w => if w ∈ dict then acc + 1 else acc) 0

/-- The smoothing constant `0.000001` of the polarity and subjectivity
formulas, as an exact rational. -/
def eps : ℚ := 1 / 1000000

/-- The 13 numeric fields of the output record (Python dict keys
`POSITIVE SCORE` … `AVG WORD LENGTH`), all modelled in `ℚ`. -/
structure Metrics where
  positiveScore : ℚ
  negativeScore : ℚ
  polarityScore : ℚ
  subjectivityScore : ℚ
  avgSentenceLength : ℚ
  percentComplexWords : ℚ
  fogIndex : ℚ
  avgWordsPerSentence : ℚ
  complexWordCount : ℚ
  wordCount : ℚ
  syllablePerWord : ℚ
  personalPronouns : ℚ
  avgWordLength : ℚ
  deriving DecidableEq, Repr

/-- `_get_empty_metrics`: the all-zero record. -/
def emptyMetrics : Metrics :=
  { positiveScore := 0, negativeScore := 0, polarityScore := 0,
    subjectivityScore := 0, avgSentenceLength := 0,
    percentComplexWords := 0, fogIndex := 0, avgWordsPerSentence := 0,
    complexWordCount := 0, wordCount := 0, syllablePerWord := 0,
    personalPronouns := 0, avgWordLength := 0 }

/-- The metric computation of `main.py` lines 96-130, character-identical
to `analyze_articles.py` lines 62-114: the internal negative score is the
negated match count (`* -1`), the output field its absolute value;
`total_sentiment = positive_score + abs(negative_score)`.  The
`if words else 0` guards of the source are kept even where the caller
has already ruled out empty `words`. -/
def computeMetrics (a : Analyzer) (sentences raw words : List Tok)
    (text : Tok) : Metrics :=
  let p : ℕ := countIn a.positive words
  let negScore : ℤ := -(countIn a.negative words : ℤ)
  let total : ℤ := (p : ℤ) + |negScore|
  let polarity : ℚ := ((p : ℚ) + (negScore : ℚ)) / ((total : ℚ) + eps)
  let subjectivity : ℚ := (total : ℚ) / ((words.length : ℚ) + eps)
  let avgSent : ℚ :=
    if sentences = [] then 0 else (raw.length : ℚ) / (sentences.length : ℚ)
  let complex : List Tok := words.filter (fun w => 2 < countSyllables w)
  let pct : ℚ :=
    if words = [] then 0 else (complex.length : ℚ) / (words.length : ℚ)
  let fog : ℚ := (2 / 5 : ℚ) * (avgSent + pct)
  let spw : ℚ :=
    if words = [] then 0
    else ((words.map countSyllables).sum : ℚ) / (words.length : ℚ)
  let awl : ℚ :=
    if words = [] then 0
    else ((words.map List.length).sum : ℚ) / (words.length : ℚ)
  { positiveScore := (p : ℚ), negativeScore := ((|negScore| : ℤ) : ℚ),
    polarityScore := polarity, subjectivityScore := subjectivity,
    avgSentenceLength := avgSent, percentComplexWords := pct,
    fogIndex := fog, avgWordsPerSentence := avgSent,
    complexWordCount := (complex.length : ℚ), wordCount := (words.length : ℚ),
    syllablePerWord := spw, personalPronouns := (personalPronouns text : ℚ),
    avgWordLength := awl }

/-- `TextAnalyzer.analyze_text` of `main.py` (lines 78-133): empty text
yields the all-zero record; the whole body sits in a `try` whose only
fallible calls are the three tokenizer invocations, so any tokenizer
exception also yields the all-zero record; an empty clean-token stream
yields the all-zero record. -/
def analyzeText (st wt : Tokenizer) (a : Analyzer) (text : Tok) : Metrics :=
  if text = [] then emptyMetrics
  else
    match st text, wt text, wt (cleanText text) with
    | some sentences, some raw, some toks =>
      let words := cleanFilter a toks
      if words = [] then emptyMetrics
      else computeMetrics a sentences raw words text
    | _, _, _ => emptyMetrics

/-- `ArticleAnalyzer.analyze_text` of `analyze_articles.py` (lines
44-114): returns `None` for empty text; it has no internal `try`, so a
tokenizer exception propagates (the caller `analyze_file`, lines 35-42,
catches it and returns `None`); there is no empty-clean-stream guard. -/
def articleAnalyzeText (st wt : Tokenizer) (a : Analyzer) (text : Tok) :
    Option Metrics :=
  if text = [] then none
  else
    match st text, wt text, wt (cleanText text) with
    | some sentences, some raw, some toks =>
      some (computeMetrics a sentences raw (cleanFilter a toks) text)
    | _, _, _ => none

/-! ### `text_analysis.py` variant of `analyze_text` -/

/-- Fallback sentence split of `text_analysis.py` line 100:
`[s.strip() for s in re.split(r'[.!?]+', text) if s.strip()]`.
Splitting on runs of `.!?` and splitting on each such character agree
after empty fragments are stripped away. -/
def fallbackSent (t : Tok) : List Tok :=
  ((splitOnPred (fun c => c = '.' || c = '!' || c = '?') t).map strip).filter
    (fun f => !f.isEmpty)

/-- Fallback word split of `text_analysis.py` line 101:
`[w.strip().lower() for w in text.split() if w.strip()]` (fragments of a
whitespace split contain no whitespace, so the inner `strip` is the
identity). -/
def fallbackWords (t : Tok) : List Tok :=
  (((splitOnPred Char.isWhitespace t).map strip).filter
    (fun f => !f.isEmpty)).map (fun w => w.map Char.toLower)

/-- `text_analysis.py` lines 93-101: try
`sent_tokenize(text)` / `word_tokenize(text.lower())`; if either raises,
fall back to the basic splits for both streams. -/
def taRawStreams (st wt : Tokenizer) (text : Tok) : List Tok × List Tok :=
  match st text, wt (text.map Char.toLower) with
  | some s, some w => (s, w)
  | _, _ => (fallbackSent text, fallbackWords text)

/-- `text_analysis.py` line 104: filter, with `isalnum` tested first. -/
def taCleanTokens (st wt : Tokenizer) (a : Analyzer) (text : Tok) :
    List Tok :=
  (taRawStreams st wt text).2.filter
    (fun w => isAlnumTok w && !a.stop.contains w)

/-- `TextAnalyzer.analyze_text` of `text_analysis.py` (lines 89-144):
no sign flip on the negative score, `avg_sentence_length` uses the
CLEAN token count over `max(len(sentences), 1)`, syllables via the
non-stripping counter, pronouns without the lookahead. -/
def taAnalyzeText (st wt : Tokenizer) (a : Analyzer) (text : Tok) :
    Metrics :=
  if text = [] then emptyMetrics
  else
    let sentences := (taRawStreams st wt text).1
    let words := taCleanTokens st wt a text
    let p : ℕ := countIn a.positive words
    let n : ℕ := countIn a.negative words
    if words = [] then emptyMetrics
    else
      let polarity : ℚ := ((p : ℚ) - (n : ℚ)) / (((p : ℚ) + (n : ℚ)) + eps)
      let subjectivity : ℚ := ((p : ℚ) + (n : ℚ)) / ((words.length : ℚ) + eps)
      let avgSent : ℚ := (words.length : ℚ) / ((max sentences.length 1 : ℕ) : ℚ)
      let complex : List Tok := words.filter (fun w => 2 < taCountSyllables w)
      let pct : ℚ := (complex.length : ℚ) / (words.length : ℚ)
      let fog : ℚ := (2 / 5 : ℚ) * (avgSent + pct)
      let awl : ℚ := ((words.map List.length).sum : ℚ) / (words.length : ℚ)
      { positiveScore := (p : ℚ), negativeScore := (n : ℚ),
        polarityScore := polarity, subjectivityScore := subjectivity,
        avgSentenceLength := avgSent, percentComplexWords := pct,
        fogIndex := fog, avgWordsPerSentence := avgSent,
        complexWordCount := (complex.length : ℚ),
        wordCount := (words.length : ℚ),
        syllablePerWord :=
          ((words.map taCountSyllables).sum : ℚ) / (words.length : ℚ),
        personalPronouns := (taPronouns text : ℚ), avgWordLength := awl }

/-! ### Concrete tokenizer models for evaluation

Executable stand-ins for NLTK used when a claim is settled on a concrete
input: `mWord` splits on whitespace, `mSent` on sentence punctuation. -/

/-- Whitespace-splitting model of `word_tokenize`. -/
def mWord : Tokenizer := fun t => some (splitOnPred Char.isWhitespace t)

/-- Sentence-splitting model of `sent_tokenize`. -/
def mSent : Tokenizer := fun t =>
  some (((splitOnPred (fun c => c = '.' || c = '!' || c = '?') t).map
    strip).filter (fun f => !f.isEmpty))

/-! ### Word-list loading and the encoding fallback chain

`_load_words` (main.py lines 31-41, analyze_articles.py lines 16-26,
text_analysis.py lines 33-47) tries the encodings
`['utf-8', 'latin-1', 'cp1252', 'iso-8859-1']` in order and parses the
first decode that succeeds.  A file is modelled at whole-resource
granularity by a function from the encoding to `Option` of the decoded
line list (lines without their trailing newline); `none` models a
`UnicodeDecodeError` for that encoding. -/

/-- The four candidate encodings, in the order of the source list. -/
inductive Enc
  | utf8
  | latin1
  | cp1252
  | iso88591
  deriving DecidableEq, Repr

/-- `encodings = ['utf-8', 'latin-1', 'cp1252', 'iso-8859-1']`. -/
def encOrder : List Enc := [Enc.utf8, Enc.latin1, Enc.cp1252, Enc.iso88591]

/-- A decodable resource: each encoding either yields the decoded lines
or fails. -/
abbrev Resource := Enc → Option (List Tok)

/-- Line filter of `_load_words`:
`if line.strip() and not line.startswith(';')`. -/
def keepLine (l : Tok) : Bool := !(strip l).isEmpty && !(l.head? == some ';')

/-- The set built from the kept, stripped lines of a decoded resource. -/
def parseWordLines (ls : List Tok) : Finset Tok :=
  ((ls.filter keepLine).map strip).toFinset

/-- The `for encoding in encodings: try … except UnicodeDecodeError:
continue` loop; falling off the loop end yields the empty set. -/
def loadWordsAux : List Enc → Resource → Finset Tok
  | [], _ => ∅
  | e :: es, dec =>
    match dec e with
    | some ls => parseWordLines ls
    | none => loadWordsAux es dec

/-- `TextAnalyzer._load_words`. -/
def loadWords (dec : Resource) : Finset Tok := loadWordsAux encOrder dec

/-- Which encoding the loop accepted, if any (`none` = the
all-encodings-failed branch). -/
def succEncAux : List Enc → Resource → Option Enc
  | [], _ => none
  | e :: es, dec =>
    match dec e with
    | some _ => some e
    | none => succEncAux es dec

def succEnc (dec : Resource) : Option Enc := succEncAux encOrder dec

/-- Claim-side composition, modelled from the specification's words:
the first encoding of the fixed priority order that decodes the whole
resource. -/
def firstDecoded (dec : Resource) : Option (List Tok) :=
  match dec Enc.utf8 with
  | some v => some v
  | none =>
    match dec Enc.latin1 with
    | some v => some v
    | none =>
      match dec Enc.cp1252 with
      | some v => some v
      | none => dec Enc.iso88591

/-- A directory entry: file name and its resource. -/
abbrev DirEntry := Tok × Resource

/-- Python `file.endswith('.txt')`. -/
def endsTxt (name : Tok) : Bool := (".txt").toList.isSuffixOf name

/-- `TextAnalyzer._load_stop_words` of `main.py` (lines 43-48): union of
`_load_words` over every `.txt` entry of the directory listing. -/
def loadStopWords (dir : List DirEntry) : Finset Tok :=
  dir.foldl
    (fun acc f => if endsTxt f.1 then acc ∪ loadWords f.2 else acc) ∅

/-! #### Byte-level model for the latin-1 totality claim

The latin-1 (ISO-8859-1) codec maps every byte `b` to the code point
`U+00b`, so decoding can never fail; the other three codecs stay
abstract. -/

/-- Raw file contents: a byte sequence. -/
abbrev ByteSeq := List (Fin 256)

/-- The latin-1 decode of a byte sequence: byte value = code point. -/
def latin1Decode (bs : ByteSeq) : Tok := bs.map (fun b => Char.ofNat b.val)

/-- Latin-1 decoded lines (text mode splits on newlines; empty lines are
dropped here, which the loader's `line.strip()` filter would drop
anyway). -/
def latin1Lines (bs : ByteSeq) : List Tok :=
  splitOnPred (fun c => c = '\n') (latin1Decode bs)

/-- The resource presented by a raw byte file: `u`, `c`, `i` are
abstract models of the utf-8, cp1252 and iso-8859-1 codecs; the latin-1
decode is total by construction of the codec. -/
def byteDec (u c i : ByteSeq → Option (List Tok)) (bs : ByteSeq) :
    Resource := fun e =>
  match e with
  | Enc.utf8 => u bs
  | Enc.latin1 => some (latin1Lines bs)
  | Enc.cp1252 => c bs
  | Enc.iso88591 => i bs

/-! ### Test fixtures and claim-side predicates -/

/-- The three unscoreable conditions of the claim for
`TextAnalyzer.analyze_text` of `main.py`: empty text, a tokenizer
exception, or an empty clean-token stream. -/
def unscoreable (st wt : Tokenizer) (a : Analyzer) (t : Tok) : Prop :=
  t = [] ∨ st t = none ∨ wt t = none ∨ wt (cleanText t) = none ∨
    (∃ toks, wt (cleanText t) = some toks ∧ cleanFilter a toks = [])

/-- The end-to-end example lexicons: positive={good},
negative={bad,terrible}, stop={is,and}. -/
def exAnalyzer : Analyzer :=
  Analyzer.mk [("good").toList]
    [("bad").toList, ("terrible").toList]
    [("is").toList, ("and").toList]

/-- The end-to-end example text. -/
def exText : Tok := ("John is good. Mary is bad and terrible.").toList

/-- A four-word, two-sentence test text and a stop list holding `the`. -/
def t4 : Tok := ("the cat sat . the dog ran .").toList

def a4 : Analyzer := Analyzer.mk [] [] [("the").toList]

/-- A text whose clean-token stream is empty although it has both raw
tokens and sentences. -/
def tStop : Tok := ("the").toList

/-- The claimed shape of an output record: every field non-negative
except `polarity_score`, which lies in `[-1, 1]` (all fields are plain
rationals, hence present and finite by construction). -/
def recordWellBounded (m : Metrics) : Prop :=
  0 ≤ m.positiveScore ∧ 0 ≤ m.negativeScore ∧
  -1 ≤ m.polarityScore ∧ m.polarityScore ≤ 1 ∧
  0 ≤ m.subjectivityScore ∧ 0 ≤ m.avgSentenceLength ∧
  0 ≤ m.percentComplexWords ∧ 0 ≤ m.fogIndex ∧
  0 ≤ m.avgWordsPerSentence ∧ 0 ≤ m.complexWordCount ∧
  0 ≤ m.wordCount ∧ 0 ≤ m.syllablePerWord ∧
  0 ≤ m.personalPronouns ∧ 0 ≤ m.avgWordLength

/-! ### Helper lemmas -/

theorem vowelGroups_nonneg : ∀ (b : Bool) (w : Tok), 0 ≤ vowelGroups b w := by
  intro b w
  induction w generalizing b with
  | nil => simp [vowelGroups]
  | cons c cs ih =>
    simp only [vowelGroups]
    have h := ih (isVowel c)
    split <;> omega

theorem vowelGroups_pos_of_vowel_mem :
    ∀ (w : Tok), (∃ c ∈ w, isVowel c = true) → 1 ≤ vowelGroups false w := by
  intro w
  induction w with
  | nil => rintro ⟨c, hc, -⟩; exact absurd hc (List.not_mem_nil c)
  | cons c cs ih =>
    rintro ⟨d, hd, hdv⟩
    simp only [vowelGroups]
    by_cases hv : isVowel c = true
    · have hnn := vowelGroups_nonneg true cs
      rw [hv]
      simp only [Bool.not_false, Bool.and_true, if_true]
      omega
    · rcases List.mem_cons.mp hd with rfl | hmem
      · exact absurd hdv hv
      · have h1 := ih ⟨d, hmem, hdv⟩
        have hcf : isVowel c = false := by
          cases h : isVowel c with
          | false => rfl
          | true => exact absurd h hv
        rw [hcf]
        simp only [Bool.false_and, Bool.false_eq_true, if_false]
        omega

theorem endsE_vowel_mem (w : Tok) (h : endsE w = true) :
    ∃ c ∈ w, isVowel c = true := by
  refine ⟨'e', ?_, by decide⟩
  unfold endsE lastChar at h
  cases hrev : w.reverse with
  | nil => rw [hrev] at h; simp at h
  | cons c r =>
    rw [hrev] at h
    simp only [List.head?] at h
    have hc : c = 'e' := by
      have := of_decide_eq_true h
      simpa using this
    subst hc
    have : 'e' ∈ w.reverse := by rw [hrev]; exact List.mem_cons_self _ _
    exact (List.mem_reverse).mp this

theorem adjustCount_one_le (w : Tok) : 1 ≤ adjustCount w := by
  unfold adjustCount
  by_cases he : endsE w = true
  · have h1 : 1 ≤ vowelGroups false w :=
      vowelGroups_pos_of_vowel_mem w (endsE_vowel_mem w he)
    simp only [he, if_true]
    split <;> omega
  · have h0 : 0 ≤ vowelGroups false w := vowelGroups_nonneg false w
    have he' : endsE w = false := by
      cases h : endsE w with
      | false => rfl
      | true => exact absurd h he
    simp only [he', Bool.false_eq_true, if_false]
    split <;> omega

/-- Every result of `countSyllables` is at least 1 (the code's
`if count == 0: count = 1`, combined with the fact that a word ending in
`e` holds at least one vowel group, so the `- 1` adjustment never drives
the count below zero). -/
theorem countSyllables_one_le (w : Tok) : 1 ≤ countSyllables w := by
  unfold countSyllables
  exact adjustCount_one_le _

theorem countSyllables_nonneg (w : Tok) : 0 ≤ countSyllables w :=
  le_trans (by norm_num) (countSyllables_one_le w)

/-- On scoreable input (nonempty text, working tokenizers, nonempty
clean stream) `analyze_text` of `main.py` lands in the metric
computation. -/
theorem analyzeText_eq_compute (st wt : Tokenizer) (a : Analyzer)
    (t : Tok) (s r toks : List Tok) (h0 : t ≠ []) (h1 : st t = some s)
    (h2 : wt t = some r) (h3 : wt (cleanText t) = some toks)
    (h4 : cleanFilter a toks ≠ []) :
    analyzeText st wt a t = computeMetrics a s r (cleanFilter a toks) t := by
  simp only [analyzeText, h1, h2, h3, if_neg h0, if_neg h4]

theorem computeMetrics_positiveScore (a : Analyzer)
    (s r w : List Tok) (t : Tok) :
    (computeMetrics a s r w t).positiveScore = (countIn a.positive w : ℚ) :=
  rfl

theorem computeMetrics_negativeScore (a : Analyzer)
    (s r w : List Tok) (t : Tok) :
    (computeMetrics a s r w t).negativeScore =
      ((|(-(countIn a.negative w : ℤ))| : ℤ) : ℚ) := rfl

theorem computeMetrics_polarityScore (a : Analyzer)
    (s r w : List Tok) (t : Tok) :
    (computeMetrics a s r w t).polarityScore =
      ((countIn a.positive w : ℚ) + ((-(countIn a.negative w : ℤ)) : ℚ)) /
        ((((countIn a.positive w : ℤ) + |(-(countIn a.negative w : ℤ))| : ℤ) : ℚ)
          + eps) := rfl

theorem computeMetrics_subjectivityScore (a : Analyzer)
    (s r w : List Tok) (t : Tok) :
    (computeMetrics a s r w t).subjectivityScore =
      ((((countIn a.positive w : ℤ) + |(-(countIn a.negative w : ℤ))| : ℤ) : ℚ)) /
        ((w.length : ℚ) + eps) := rfl

theorem computeMetrics_avgSentenceLength (a : Analyzer)
    (s r w : List Tok) (t : Tok) :
    (computeMetrics a s r w t).avgSentenceLength =
      (if s = [] then 0 else (r.length : ℚ) / (s.length : ℚ)) := rfl

theorem computeMetrics_wordCount (a : Analyzer)
    (s r w : List Tok) (t : Tok) :
    (computeMetrics a s r w t).wordCount = (w.length : ℚ) := rfl

/-- On nonempty text with a nonempty clean stream, the
`text_analysis.py` record's sentence-length field is the CLEAN token
count over `max(len(sentences), 1)`. -/
theorem taAnalyzeText_avg (st wt : Tokenizer) (a : Analyzer) (text : Tok)
    (h0 : text ≠ []) (h1 : taCleanTokens st wt a text ≠ []) :
    (taAnalyzeText st wt a text).avgSentenceLength =
      ((taCleanTokens st wt a text).length : ℚ) /
        ((max (taRawStreams st wt text).1.length 1 : ℕ) : ℚ) := by
  simp only [taAnalyzeText, if_neg h0, if_neg h1]

/-- An empty clean-token stream short-circuits `main.py`'s
`analyze_text` to the all-zero record. -/
theorem analyzeText_empty_clean (st wt : Tokenizer) (a : Analyzer)
    (t : Tok) (toks : List Tok) (h3 : wt (cleanText t) = some toks)
    (h5 : cleanFilter a toks = []) :
    analyzeText st wt a t = emptyMetrics := by
  by_cases ht : t = []
  · simp [analyzeText, ht]
  · cases hst : st t <;> cases hwt : wt t <;> simp_all [analyzeText]

/-- `sum(1 for word in words if word in wordset)` counts exactly the
tokens that are (exact-equality) members of the set. -/
theorem countIn_eq_length_filter (dict ws : List Tok) :
    countIn dict ws = (ws.filter (fun w => decide (w ∈ dict))).length := by
  unfold countIn
  suffices h : ∀ (l : List Tok) (acc : ℕ),
      l.foldl (fun acc w => if w ∈ dict then acc + 1 else acc) acc =
        acc + (l.filter (fun w => decide (w ∈ dict))).length by
    simpa using h ws 0
  intro l
  induction l with
  | nil => intro acc; simp
  | cons w l ih =>
    intro acc
    by_cases hw : w ∈ dict
    · simp [List.foldl_cons, hw, ih]
      omega
    · simp [List.foldl_cons, hw, ih]

theorem recordWellBounded_empty : recordWellBounded emptyMetrics := by
  unfold recordWellBounded emptyMetrics
  norm_num

theorem recordWellBounded_compute (a : Analyzer)
    (sents raw ws : List Tok) (t : Tok) :
    recordWellBounded (computeMetrics a sents raw ws t) := by
  unfold recordWellBounded computeMetrics
  dsimp only
  have heps : (0 : ℚ) < eps := by norm_num [eps]
  set pn := countIn a.positive ws with hpdef
  set nn := countIn a.negative ws with hndef
  have habs : |(-(nn : ℤ))| = (nn : ℤ) := by
    rw [abs_neg]; exact abs_of_nonneg (Int.natCast_nonneg _)
  rw [habs]
  have hpq : (0 : ℚ) ≤ (pn : ℚ) := Nat.cast_nonneg pn
  have hnq : (0 : ℚ) ≤ (nn : ℚ) := Nat.cast_nonneg nn
  have havg : (0 : ℚ) ≤
      (if sents = [] then 0
        else (raw.length : ℚ) / (sents.length : ℚ)) := by
    split
    · norm_num
    · positivity
  have hpct : (0 : ℚ) ≤
      (if ws = [] then 0
        else (((ws.filter (fun w => 2 < countSyllables w)).length : ℚ)) /
          (ws.length : ℚ)) := by
    split
    · norm_num
    · positivity
  have hsyll : (0 : ℤ) ≤ (ws.map countSyllables).sum := by
    apply List.sum_nonneg
    intro x hx
    obtain ⟨w, -, rfl⟩ := List.mem_map.mp hx
    exact countSyllables_nonneg w
  have hden : (0 : ℚ) < ((pn : ℚ) + (nn : ℚ)) + eps := by positivity
  refine ⟨hpq, ?_, ?_, ?_, ?_, havg, hpct, ?_, havg, ?_, ?_, ?_, ?_, ?_⟩
  · push_cast
    exact hnq
  · push_cast
    rw [le_div_iff₀ hden]
    linarith
  · push_cast
    rw [div_le_one hden]
    linarith
  · apply div_nonneg
    · push_cast
      linarith
    · positivity
  · apply mul_nonneg
    · norm_num
    · linarith
  · positivity
  · positivity
  · split
    · norm_num
    · apply div_nonneg
      · exact_mod_cast hsyll
      · positivity
  · positivity
  · split
    · norm_num
    · positivity

/-- C8: every record emitted by `main.py`'s `analyze_text` has all 13
fields present and finite (the record type is total over exact
rationals), none negative except `polarity_score`, which lies in
`[-1, 1]`. -/
theorem c8_field_bounds (st wt : Tokenizer) (a : Analyzer) (t : Tok) :
    recordWellBounded (analyzeText st wt a t) := by
  unfold analyzeText
  split
  · exact recordWellBounded_empty
  · split
    · dsimp only
      split
      · exact recordWellBounded_empty
      · exact recordWellBounded_compute _ _ _ _ _
    · exact recordWellBounded_empty

theorem keepLine_iff (l : Tok) :
    keepLine l = true ↔ strip l ≠ [] ∧ l.head? ≠ some ';' := by
  unfold keepLine
  rw [Bool.and_eq_true, Bool.not_eq_true', Bool.not_eq_true']
  constructor
  · rintro ⟨h1, h2⟩
    refine ⟨?_, ?_⟩
    · intro hnil
      rw [hnil] at h1
      simp at h1
    · intro hsemi
      rw [hsemi] at h2
      simp at h2
  · rintro ⟨h1, h2⟩
    refine ⟨?_, ?_⟩
    · cases h : (strip l).isEmpty
      · rfl
      · exact absurd (List.isEmpty_iff.mp h) h1
    · cases h : l.head? == some ';'
      · rfl
      · exact absurd (eq_of_beq h) h2

/-! ### Claims -/

/-- C1, counterexample: the claim's universal description of
`syllable_count` fails on the cited `text_analysis.py` variant, which
performs no `es`/`ed` suffix stripping: on the word `boxes` it returns
2, while the claim (and the `main.py` variant) give 1. -/
theorem c1_counterexample :
    taCountSyllables (("boxes").toList) = 2 ∧
    countSyllables (("boxes").toList) = 1 := by decide

/-- C1, amended: the `_count_syllables` of `main.py` and
`analyze_articles.py` implements exactly the described algorithm —
lower-case, strip a trailing `es`/`ed`, count transitions into a vowel,
subtract one for a still-trailing `e`, floor at 1 — with the claimed
values on `the`, `analyze` and `boxes`; the `text_analysis.py` variant
omits the suffix stripping. -/
theorem c1_syllable_rules :
    (∀ w : Tok, 1 ≤ countSyllables w) ∧
    countSyllables (("the").toList) = 1 ∧
    countSyllables (("analyze").toList) = 3 ∧
    countSyllables (("boxes").toList) = 1 :=
  ⟨countSyllables_one_le, by decide, by decide, by decide⟩

/-- C2, amended: `main.py`'s `TextAnalyzer.analyze_text` returns the
all-zero record (never `None`, never a propagated exception — it is a
total function into `Metrics`) on empty input, on a tokenizer
exception, and on an empty clean-token stream.  The cited
`ArticleAnalyzer` of `analyze_articles.py` does NOT satisfy the claim
(see the counterexample). -/
theorem c2_all_zero_on_unscoreable (st wt : Tokenizer) (a : Analyzer)
    (t : Tok) (h : unscoreable st wt a t) :
    analyzeText st wt a t = emptyMetrics := by
  by_cases ht : t = []
  · simp [analyzeText, ht]
  · cases hst : st t <;> cases hwt : wt t <;>
      cases hwc : wt (cleanText t) <;>
      rcases h with h0 | h1 | h1 | h1 | ⟨toks, h4, h5⟩ <;>
      simp_all [analyzeText]

theorem c2_witness :
    analyzeText mSent mWord (Analyzer.mk [] [] []) [] = emptyMetrics :=
  c2_all_zero_on_unscoreable mSent mWord (Analyzer.mk [] [] []) []
    (Or.inl rfl)

/-- C2, counterexample: `ArticleAnalyzer.analyze_text` of
`analyze_articles.py` returns `None` for empty input text (and
`analyze_file` returns `None` on an exception, dropping the row), so
the claim's "never … None" fails on that cited implementation. -/
theorem c2_counterexample :
    articleAnalyzeText mSent mWord (Analyzer.mk [] [] []) [] = none := by
  decide

/-- C3, counterexample: in the source pattern
`\b(I|we|my|ours|us)\b(?!\s+(?:states|state))` the lookahead follows the
whole alternation group, so it excludes EVERY pronoun followed by
whitespace and `state`/`states` — not only `us` as the claim states:
on `we state` the code counts 0 where the claim's only-`us` reading
counts 1.  Moreover the cited `text_analysis.py` pattern has no
lookahead at all, so `us states are many` counts 1 there, not the
claimed 0. -/
theorem c3_counterexample :
    personalPronouns (("we state").toList) = 0 ∧
    pronounsOnlyUs (("we state").toList) = 1 ∧
    taPronouns (("us states are many").toList) = 1 := by decide

/-- C3, amended: `personal_pronoun_count` counts case-insensitive
whole-word matches of I/we/my/ours/us on the raw text with word-boundary
matching (so `ourselves` never matches), but in `main.py` /
`analyze_articles.py` the `state`/`states` lookahead exclusion applies
to every pronoun (e.g. also to `my`), and in `text_analysis.py` no
exclusion is applied; the claimed example values hold for the
lookahead variant. -/
theorem c3_pronoun_rules :
    personalPronouns (("I think we should go").toList) = 2 ∧
    personalPronouns (("us states are many").toList) = 0 ∧
    personalPronouns (("The United States").toList) = 0 ∧
    personalPronouns (("ourselves and they").toList) = 0 ∧
    personalPronouns (("my ours us we I").toList) = 5 ∧
    personalPronouns (("my state of mind").toList) = 0 ∧
    taPronouns (("I think we should go").toList) = 2 := by decide

/-- C4, amended: in `main.py` / `analyze_articles.py`,
`avg_words_per_sentence` always equals `avg_sentence_length`, and on
every SCOREABLE document (nonempty text, tokenizers succeed, nonempty
clean-token stream) `avg_sentence_length` is the raw token count over
the sentence count (0 if no sentences); an unscoreable document
short-circuits to the all-zero record instead, and `text_analysis.py`
divides the clean token count by `max(sentence count, 1)` (see the
counterexample for both restrictions). -/
theorem c4_avg_sentence_length :
    (∀ (st wt : Tokenizer) (a : Analyzer) (t : Tok),
      (analyzeText st wt a t).avgWordsPerSentence =
        (analyzeText st wt a t).avgSentenceLength) ∧
    (∀ (st wt : Tokenizer) (a : Analyzer) (t : Tok) (s r toks : List Tok),
      t ≠ [] → st t = some s → wt t = some r →
      wt (cleanText t) = some toks → cleanFilter a toks ≠ [] →
      (analyzeText st wt a t).avgSentenceLength =
        (if s = [] then 0 else (r.length : ℚ) / (s.length : ℚ))) := by
  constructor
  · intro st wt a t
    unfold analyzeText
    split
    · rfl
    · split
      · dsimp only
        split
        · rfl
        · rfl
      · rfl
  · intro st wt a t s r toks h0 h1 h2 h3 h4
    rw [analyzeText_eq_compute st wt a t s r toks h0 h1 h2 h3 h4]
    exact computeMetrics_avgSentenceLength a s r (cleanFilter a toks) t

theorem c4_witness :
    (analyzeText mSent mWord a4 t4).avgSentenceLength =
      (if ((mSent t4).getD []) = [] then 0
        else ((((mWord t4).getD []).length : ℚ)) /
          (((mSent t4).getD []).length : ℚ)) :=
  c4_avg_sentence_length.2 mSent mWord a4 t4 ((mSent t4).getD [])
    ((mWord t4).getD []) ((mWord (cleanText t4)).getD [])
    (by decide) rfl rfl rfl (by decide)

/-- C4, counterexample: (i) `text_analysis.py` computes 2 on `t4`
(4 clean tokens over 2 sentences) where the claimed formula gives
8/2 = 4 (8 raw tokens over 2 sentences); (ii) even in `main.py`, a
document whose clean stream is empty gets the all-zero record, so the
field is 0 although the claimed raw/sentence ratio is 1. -/
theorem c4_counterexample :
    (taAnalyzeText mSent mWord a4 t4).avgSentenceLength = 2 ∧
    (((mWord t4).getD []).length : ℚ) /
      (((mSent t4).getD []).length : ℚ) = 4 ∧
    (analyzeText mSent mWord a4 tStop).avgSentenceLength = 0 ∧
    (mSent tStop).getD [] ≠ [] ∧
    (((mWord tStop).getD []).length : ℚ) /
      (((mSent tStop).getD []).length : ℚ) = 1 := by
  have h1 : (taAnalyzeText mSent mWord a4 t4).avgSentenceLength =
      ((taCleanTokens mSent mWord a4 t4).length : ℚ) /
        ((max (taRawStreams mSent mWord t4).1.length 1 : ℕ) : ℚ) :=
    taAnalyzeText_avg mSent mWord a4 t4 (by decide) (by decide)
  have h2 : (taCleanTokens mSent mWord a4 t4).length = 4 := by decide
  have h3 : max (taRawStreams mSent mWord t4).1.length 1 = 2 := by decide
  have h4 : ((mWord t4).getD []).length = 8 := by decide
  have h5 : ((mSent t4).getD []).length = 2 := by decide
  have h6 : analyzeText mSent mWord a4 tStop = emptyMetrics :=
    analyzeText_empty_clean mSent mWord a4 tStop
      ((mWord (cleanText tStop)).getD []) rfl (by decide)
  have h7 : ((mWord tStop).getD []).length = 1 := by decide
  have h8 : ((mSent tStop).getD []).length = 1 := by decide
  refine ⟨?_, ?_, ?_, by decide, ?_⟩
  · rw [h1, h2, h3]; norm_num
  · rw [h4, h5]; norm_num
  · rw [h6]; rfl
  · rw [h7, h8]; norm_num

/-- C5: on every scoreable document, `main.py` / `analyze_articles.py`
report the negative score as the non-negative match count against the
negative word set (the internal `* -1` sign convention notwithstanding),
with the claimed polarity and subjectivity formulas over the smoothing
constant `eps = 1/1000000`. -/
theorem c5_sentiment_scores (st wt : Tokenizer) (a : Analyzer) (t : Tok)
    (s r toks : List Tok) (h0 : t ≠ []) (h1 : st t = some s)
    (h2 : wt t = some r) (h3 : wt (cleanText t) = some toks)
    (h4 : cleanFilter a toks ≠ []) :
    0 ≤ (analyzeText st wt a t).negativeScore ∧
    (analyzeText st wt a t).negativeScore =
      (countIn a.negative (cleanFilter a toks) : ℚ) ∧
    (analyzeText st wt a t).polarityScore =
      ((countIn a.positive (cleanFilter a toks) : ℚ) -
          (countIn a.negative (cleanFilter a toks) : ℚ)) /
        ((countIn a.positive (cleanFilter a toks) : ℚ) +
          (countIn a.negative (cleanFilter a toks) : ℚ) + eps) ∧
    (analyzeText st wt a t).subjectivityScore =
      ((countIn a.positive (cleanFilter a toks) : ℚ) +
          (countIn a.negative (cleanFilter a toks) : ℚ)) /
        (((cleanFilter a toks).length : ℚ) + eps) := by
  rw [analyzeText_eq_compute st wt a t s r toks h0 h1 h2 h3 h4]
  rw [computeMetrics_negativeScore, computeMetrics_polarityScore,
    computeMetrics_subjectivityScore]
  have habs : |(-(countIn a.negative (cleanFilter a toks) : ℤ))| =
      (countIn a.negative (cleanFilter a toks) : ℤ) := by
    rw [abs_neg]
    exact abs_of_nonneg (Int.natCast_nonneg _)
  rw [habs]
  refine ⟨by positivity, by push_cast; ring_nf, ?_, ?_⟩
  · push_cast
    ring_nf
  · push_cast
    ring_nf

theorem c5_witness :
    0 ≤ (analyzeText mSent mWord (Analyzer.mk [] [("bad").toList] [])
      (("bad").toList)).negativeScore :=
  (c5_sentiment_scores mSent mWord (Analyzer.mk [] [("bad").toList] [])
    (("bad").toList) ((mSent (("bad").toList)).getD [])
    ((mWord (("bad").toList)).getD [])
    ((mWord (cleanText (("bad").toList))).getD [])
    (by decide) rfl rfl rfl (by decide)).1

/-- C6, amended: membership of a clean token in a word set is an EXACT
string comparison of the (already lower-cased) token against the
entries as stored — entries are never lower-cased, so an entry
containing an upper-case letter can never match any lower-case clean
token. -/
theorem c6_membership_exact :
    (∀ (dict ws : List Tok),
      countIn dict ws = (ws.filter (fun w => decide (w ∈ dict))).length) ∧
    (∀ (dict ws : List Tok),
      (∀ w ∈ ws, w.map Char.toLower = w) →
      (∀ e ∈ dict, e.map Char.toLower ≠ e) →
      countIn dict ws = 0) := by
  refine ⟨countIn_eq_length_filter, ?_⟩
  intro dict ws hws hdict
  rw [countIn_eq_length_filter, List.length_eq_zero, List.filter_eq_nil_iff]
  intro w hw
  simp only [decide_eq_true_eq]
  intro hmem
  exact hdict w hmem (hws w hw)

theorem c6_witness :
    countIn [("NICE").toList] [("nice").toList, ("day").toList] = 0 :=
  c6_membership_exact.2 [("NICE").toList]
    [("nice").toList, ("day").toList] (by decide) (by decide)

/-- C6, counterexample: the claim says a clean token matches whenever
the entry's lower-cased form equals the token; but with the word list
entry `Good` (lower-cased form `good`) the clean token `good` scores 0,
because the code compares against the entry as stored. -/
theorem c6_counterexample :
    countIn [("Good").toList] [("good").toList] = 0 ∧
    (("Good").toList).map Char.toLower = ("good").toList ∧
    (analyzeText mSent mWord (Analyzer.mk [("Good").toList] [] [])
      (("good").toList)).positiveScore = 0 := by
  refine ⟨by decide, by decide, ?_⟩
  rw [analyzeText_eq_compute mSent mWord
    (Analyzer.mk [("Good").toList] [] []) (("good").toList)
    ((mSent (("good").toList)).getD [])
    ((mWord (("good").toList)).getD [])
    ((mWord (cleanText (("good").toList))).getD [])
    (by decide) rfl rfl rfl (by decide)]
  rw [computeMetrics_positiveScore]
  have h : countIn (Analyzer.mk [("Good").toList] [] []).positive
      (cleanFilter (Analyzer.mk [("Good").toList] [] [])
        ((mWord (cleanText (("good").toList))).getD [])) = 0 := by decide
  rw [h]
  norm_num

/-- C7, amended: in `main.py` the clean-token pipeline (lower-case,
replace non-word/non-whitespace by a space, tokenize, drop stop words
and non-alphanumeric tokens) yields exactly the claimed tokens and
record values on the end-to-end example (polarity and subjectivity as
the exact rationals -1000000/3000001 ≈ -0.333 and
3000000/5000001 ≈ 0.6); the `text_analysis.py` variant omits the
replacement step (see the counterexample). -/
theorem c7_end_to_end :
    cleanFilter exAnalyzer ((mWord (cleanText exText)).getD []) =
      [("john").toList, ("good").toList, ("mary").toList,
        ("bad").toList, ("terrible").toList] ∧
    (analyzeText mSent mWord exAnalyzer exText).positiveScore = 1 ∧
    (analyzeText mSent mWord exAnalyzer exText).negativeScore = 2 ∧
    (analyzeText mSent mWord exAnalyzer exText).polarityScore =
      -1000000 / 3000001 ∧
    (analyzeText mSent mWord exAnalyzer exText).subjectivityScore =
      3000000 / 5000001 ∧
    (analyzeText mSent mWord exAnalyzer exText).wordCount = 5 := by
  have heq : analyzeText mSent mWord exAnalyzer exText =
      computeMetrics exAnalyzer ((mSent exText).getD [])
        ((mWord exText).getD [])
        (cleanFilter exAnalyzer ((mWord (cleanText exText)).getD []))
        exText :=
    analyzeText_eq_compute mSent mWord exAnalyzer exText _ _ _
      (by decide) rfl rfl rfl (by decide)
  have hp : countIn exAnalyzer.positive
      (cleanFilter exAnalyzer ((mWord (cleanText exText)).getD [])) = 1 := by
    decide
  have hn : countIn exAnalyzer.negative
      (cleanFilter exAnalyzer ((mWord (cleanText exText)).getD [])) = 2 := by
    decide
  have hl : (cleanFilter exAnalyzer
      ((mWord (cleanText exText)).getD [])).length = 5 := by decide
  refine ⟨by decide, ?_, ?_, ?_, ?_, ?_⟩
  · rw [heq, computeMetrics_positiveScore, hp]; norm_num
  · rw [heq, computeMetrics_negativeScore, hn]; norm_num
  · rw [heq, computeMetrics_polarityScore, hp, hn]; norm_num [eps]
  · rw [heq, computeMetrics_subjectivityScore, hp, hn, hl]; norm_num [eps]
  · rw [heq, computeMetrics_wordCount, hl]; norm_num

/-- C7, counterexample: `text_analysis.py` tokenizes the lower-cased
text directly, without replacing non-word characters by spaces; on
`well-known` its clean-token stream is empty (the hyphenated token
fails `isalnum`), whereas the claimed pipeline — as implemented in
`main.py` — yields the tokens `well`, `known`. -/
theorem c7_counterexample :
    taCleanTokens mSent mWord (Analyzer.mk [] [] [])
      (("well-known").toList) = [] ∧
    cleanFilter (Analyzer.mk [] [] [])
      ((mWord (cleanText (("well-known").toList))).getD []) =
      [("well").toList, ("known").toList] := by decide

/-- C9: `_load_words` accepts the first encoding of the fixed priority
order that decodes the resource (empty set when all fail, no exception
propagated — the function is total); the parsed set holds exactly the
stripped forms of the nonempty non-comment lines; `_load_stop_words`
unions `_load_words` over exactly the `.txt` entries of the directory,
per-file failures contributing an empty set. -/
theorem c9_loader_semantics :
    (∀ dec : Resource,
      loadWords dec =
        match firstDecoded dec with
        | some ls => parseWordLines ls
        | none => ∅) ∧
    (∀ (ls : List Tok) (w : Tok),
      w ∈ parseWordLines ls ↔
        ∃ l, l ∈ ls ∧ strip l ≠ [] ∧ l.head? ≠ some ';' ∧ w = strip l) ∧
    (∀ (dir : List DirEntry) (w : Tok),
      w ∈ loadStopWords dir ↔
        ∃ f, f ∈ dir ∧ endsTxt f.1 = true ∧ w ∈ loadWords f.2) := by
  refine ⟨?_, ?_, ?_⟩
  · intro dec
    cases h1 : dec Enc.utf8 <;> cases h2 : dec Enc.latin1 <;>
      cases h3 : dec Enc.cp1252 <;> cases h4 : dec Enc.iso88591 <;>
      simp [loadWords, loadWordsAux, encOrder, firstDecoded, h1, h2, h3, h4]
  · intro ls w
    unfold parseWordLines
    simp only [List.mem_toFinset, List.mem_map, List.mem_filter, keepLine_iff]
    constructor
    · rintro ⟨l, ⟨hl, h1, h2⟩, rfl⟩
      exact ⟨l, hl, h1, h2, rfl⟩
    · rintro ⟨l, hl, h1, h2, rfl⟩
      exact ⟨l, ⟨hl, h1, h2⟩, rfl⟩
  · have key : ∀ (dir : List DirEntry) (acc : Finset Tok) (w : Tok),
        (w ∈ dir.foldl
          (fun acc f => if endsTxt f.1 then acc ∪ loadWords f.2 else acc)
          acc) ↔
          w ∈ acc ∨ ∃ f, f ∈ dir ∧ endsTxt f.1 = true ∧ w ∈ loadWords f.2 := by
      intro dir
      induction dir with
      | nil => intro acc w; simp
      | cons f fs ih =>
        intro acc w
        simp only [List.foldl_cons]
        by_cases hf : endsTxt f.1 = true
        · rw [if_pos hf, ih]
          simp only [Finset.mem_union, List.mem_cons]
          constructor
          · rintro (⟨hw | hw⟩ | ⟨g, hg, hg1, hg2⟩)
            · exact Or.inl hw
            · exact Or.inr ⟨f, Or.inl rfl, hf, hw⟩
            · exact Or.inr ⟨g, Or.inr hg, hg1, hg2⟩
          · rintro (hw | ⟨g, hg | hg, hg1, hg2⟩)
            · exact Or.inl (Or.inl hw)
            · subst hg
              exact Or.inl (Or.inr hg2)
            · exact Or.inr ⟨g, hg, hg1, hg2⟩
        · rw [if_neg hf, ih]
          simp only [List.mem_cons]
          constructor
          · rintro (hw | ⟨g, hg, hg1, hg2⟩)
            · exact Or.inl hw
            · exact Or.inr ⟨g, Or.inr hg, hg1, hg2⟩
          · rintro (hw | ⟨g, hg | hg, hg1, hg2⟩)
            · exact Or.inl hw
            · subst hg
              exact absurd hg1 hf
            · exact Or.inr ⟨g, hg, hg1, hg2⟩
    intro dir w
    rw [loadStopWords, key]
    simp

/-- C10: the latin-1 codec decodes every byte sequence (each byte is a
code point), so the encoding loop accepts utf-8 or latin-1, never
reaches the cp1252 / iso-8859-1 attempts (the result does not depend on
those decoders), and the all-encodings-failed branch that returns the
empty set through exhaustion is unreachable: the loader's result is
always the parse of the utf-8 decode or, failing that, of the latin-1
decode. -/
theorem c10_latin1_unreachable
    (u c i c2 i2 : ByteSeq → Option (List Tok)) (bs : ByteSeq) :
    (succEnc (byteDec u c i bs) = some Enc.utf8 ∨
      succEnc (byteDec u c i bs) = some Enc.latin1) ∧
    loadWords (byteDec u c i bs) =
      parseWordLines ((u bs).getD (latin1Lines bs)) ∧
    loadWords (byteDec u c i bs) = loadWords (byteDec u c2 i2 bs) := by
  cases h : u bs <;>
    simp [succEnc, succEncAux, encOrder, loadWords, loadWordsAux, byteDec, h]
